import Mathlib

/-!
Shallow embedding of the matching, availability, certificate and inventory
logic of the Blood_Donor_system repository.

Conventions of the embedding:
* Machine time (JavaScript `Date` values) is modelled as `Int`, milliseconds
  since the epoch; `new Date()` at the moment a handler runs is an explicit
  `now : Int` parameter.
* The MongoDB collections are modelled as Lean lists; `find` with a query is
  `List.filter` with the query predicate, `findOne` is `List.find?`.
* A `$near` geospatial clause filters on a distance function
  `dist : α → Nat` (metres from the query point, supplied per query) with
  `dist x ≤ maxDistance`, and orders nearest-first; an explicit `.sort(..)`
  on the cursor replaces that ordering.  Sorting is modelled with
  `List.insertionSort` over the comparison the database applies.
* MongoDB compares BSON strings bytewise; `strLt` below is that comparison
  on the (ASCII) enum strings appearing in the schemas.
-/

namespace BloodDonorSystem

/-- The eight ABO/Rh blood group values of the `bloodType` enum shared by the
`Donor`, `BloodRequest` and `Donation` schemas
(`['A+', 'A-', 'B+', 'B-', 'AB+', 'AB-', 'O+', 'O-']`). -/
inductive BloodType
  | Apos
  | Aneg
  | Bpos
  | Bneg
  | ABpos
  | ABneg
  | Opos
  | Oneg
deriving DecidableEq, Repr

/-- The donor-to-recipient compatibility table of
`getCompatibleBloodTypes(donorBloodType)` in the BloodRequest model
(`src/backend/src/models/Donor.js`, the blood-request half).  The JS
function falls back to `[]` for a key outside the table; `BloodType`
covers exactly the eight keys, so that branch has no counterpart here. -/
def getCompatibleBloodTypes : BloodType → List BloodType
  | .Oneg => [.Oneg, .Opos, .Aneg, .Apos, .Bneg, .Bpos, .ABneg, .ABpos]
  | .Opos => [.Opos, .Apos, .Bpos, .ABpos]
  | .Aneg => [.Aneg, .Apos, .ABneg, .ABpos]
  | .Apos => [.Apos, .ABpos]
  | .Bneg => [.Bneg, .Bpos, .ABneg, .ABpos]
  | .Bpos => [.Bpos, .ABpos]
  | .ABneg => [.ABneg, .ABpos]
  | .ABpos => [.ABpos]

/-- The `urgency` enum of the BloodRequest schema:
`['low', 'medium', 'high', 'critical']`. -/
inductive Urgency
  | low
  | medium
  | high
  | critical
deriving DecidableEq, Repr

/-- The string stored in the `urgency` field for each enum value.  MongoDB
sorts on these stored strings, not on the position in the enum list. -/
def urgencyString : Urgency → String
  | .low => "low"
  | .medium => "medium"
  | .high => "high"
  | .critical => "critical"

/-- The `status` enum of the BloodRequest schema:
`['active', 'partially_fulfilled', 'fulfilled', 'expired', 'cancelled']`. -/
inductive RequestStatus
  | active
  | partially_fulfilled
  | fulfilled
  | expired
  | cancelled
deriving DecidableEq, Repr

/-- Bytewise (lexicographic, by code point) comparison on char lists; for the
ASCII enum strings of these schemas this is exactly the BSON string order
MongoDB sorts by. -/
def lexLt : List Char → List Char → Bool
  | [], [] => false
  | [], _ :: _ => true
  | _ :: _, [] => false
  | a :: as, b :: bs =>
    if a.toNat < b.toNat then true
    else if b.toNat < a.toNat then false
    else lexLt as bs

/-- BSON string comparison on Lean strings. -/
def strLt (s t : String) : Bool := lexLt s.toList t.toList

/-- A BloodRequest document, restricted to the fields the verified logic
reads or writes. -/
structure BloodRequest where
  patientName : String
  bloodType : BloodType
  unitsNeeded : Nat
  urgency : Urgency
  requiredBy : Int
  status : RequestStatus
  unitsFulfilled : Nat
deriving DecidableEq, Repr

/-- The `status: { $in: ['active', 'partially_fulfilled'] }` clause of
`bloodRequestSchema.statics.findNearby`. -/
def requestStatusFilter (r : BloodRequest) : Bool :=
  r.status == .active || r.status == .partially_fulfilled

/-- The `requiredBy: { $gt: new Date() }` clause of
`bloodRequestSchema.statics.findNearby`. -/
def requestRequiredByFilter (now : Int) (r : BloodRequest) : Bool :=
  decide (now < r.requiredBy)

/-- The blood-type clause of `bloodRequestSchema.statics.findNearby`: absent
when no `bloodType` argument is given, otherwise
`bloodType: { $in: getCompatibleBloodTypes(bloodType) }`. -/
def requestBloodTypeFilter (donorBloodType : Option BloodType) (r : BloodRequest) : Bool :=
  match donorBloodType with
  | none => true
  | some t => decide (r.bloodType ∈ getCompatibleBloodTypes t)

/-- The whole query object of `bloodRequestSchema.statics.findNearby`:
`$near`/`$maxDistance` on `location`, the status clause, the `requiredBy`
clause, and the optional compatible-blood-type clause. -/
def requestMatchesQuery (dist : BloodRequest → Nat) (maxDistance : Nat) (now : Int)
    (donorBloodType : Option BloodType) (r : BloodRequest) : Bool :=
  decide (dist r ≤ maxDistance) && requestStatusFilter r &&
    requestRequiredByFilter now r && requestBloodTypeFilter donorBloodType r

/-- The cursor ordering `.sort({ urgency: -1, requiredBy: 1 })` of
`bloodRequestSchema.statics.findNearby`: descending BSON-string order on the
stored `urgency` string, then ascending `requiredBy`.  `a` may come before
`b` exactly when this returns `true`. -/
def requestSortLe (a b : BloodRequest) : Bool :=
  if urgencyString a.urgency == urgencyString b.urgency then
    decide (a.requiredBy ≤ b.requiredBy)
  else strLt (urgencyString b.urgency) (urgencyString a.urgency)

/-- `requestSortLe` as a relation, for `List.insertionSort`. -/
def requestSortRel (a b : BloodRequest) : Prop :=
  requestSortLe a b = true

instance : DecidableRel requestSortRel := fun a b =>
  inferInstanceAs (Decidable (requestSortLe a b = true))

/-- `bloodRequestSchema.statics.findNearby(coordinates, maxDistance, bloodType)`:
filter the collection by `requestMatchesQuery` and order by
`.sort({ urgency: -1, requiredBy: 1 })`.  The JS default `maxDistance = 50000`
is passed explicitly by callers of this model. -/
def bloodRequestFindNearby (dist : BloodRequest → Nat) (maxDistance : Nat) (now : Int)
    (bloodType : Option BloodType) (requests : List BloodRequest) : List BloodRequest :=
  List.insertionSort requestSortRel
    (requests.filter (requestMatchesQuery dist maxDistance now bloodType))

/-- Milliseconds in a day; `setDate(getDate() + 56)` on a JS `Date` advances
the date by 56 days, i.e. `56 * msPerDay` in epoch milliseconds. -/
def msPerDay : Int := 86400000

/-- A Donor document, restricted to the fields the verified logic reads or
writes.  `lastDonationDate` is `none` for the schema default `null`. -/
structure Donor where
  bloodType : BloodType
  lastDonationDate : Option Int
  isAvailable : Bool
  donationCount : Nat
  totalVolumeDonated : Nat
deriving DecidableEq, Repr

/-- The virtual `nextEligibleDonationDate`: `new Date()` when
`lastDonationDate` is null, otherwise the last donation date plus 56 days
(the 8-week gap). -/
def nextEligibleDonationDate (now : Int) (d : Donor) : Int :=
  match d.lastDonationDate with
  | none => now
  | some last => last + 56 * msPerDay

/-- `donorSchema.methods.isEligibleToDonate`: false when `isAvailable` is
false; true when `lastDonationDate` is null; otherwise
`now >= nextEligibleDonationDate`. -/
def isEligibleToDonate (now : Int) (d : Donor) : Bool :=
  if !d.isAvailable then false
  else
    match d.lastDonationDate with
    | none => true
    | some _ => decide (nextEligibleDonationDate now d ≤ now)

/-- `donorSchema.methods.updateAvailability`: recompute `isAvailable` from
`isEligibleToDonate` and save. -/
def updateAvailability (now : Int) (d : Donor) : Donor :=
  { d with isAvailable := isEligibleToDonate now d }

/-- The query object of `donorSchema.statics.findNearby`:
`$near`/`$maxDistance` on `location`, `isAvailable: true`, and an exact
`bloodType` match when one is supplied. -/
def donorMatchesQuery (dist : Donor → Nat) (maxDistance : Nat)
    (bloodType : Option BloodType) (d : Donor) : Bool :=
  decide (dist d ≤ maxDistance) && d.isAvailable &&
    match bloodType with
    | none => true
    | some t => d.bloodType == t

/-- `donorSchema.statics.findNearby(coordinates, maxDistance, bloodType)`:
filter by `donorMatchesQuery`; the `$near` cursor returns matches ordered
nearest-first (no explicit `.sort` overrides it here). -/
def donorFindNearby (dist : Donor → Nat) (maxDistance : Nat)
    (bloodType : Option BloodType) (donors : List Donor) : List Donor :=
  List.insertionSort (fun a b => dist a ≤ dist b)
    (donors.filter (donorMatchesQuery dist maxDistance bloodType))

/-- The body fields of the `updateDonor` controller (PUT /api/donors/profile)
that touch the state modelled here.  The controller copies every key of
`allowedUpdates` (`age`, `weight`, `lastDonationDate`, `isAvailable`,
`medicalHistory`, `contactPreferences`, `location`, `address`,
`emergencyContact`) that appears in the request body onto the donor and
saves, with no further check; `none` means the key is absent from the body. -/
structure DonorProfileUpdate where
  lastDonationDate : Option (Option Int)
  isAvailable : Option Bool
deriving DecidableEq, Repr

/-- `updateDonor` (PUT /api/donors/profile): `Object.assign(donor, updates)`
followed by `donor.save()`.  The donor schema has no save hook recomputing
availability, so the supplied values are stored as-is. -/
def updateDonor (upd : DonorProfileUpdate) (d : Donor) : Donor :=
  { d with
    lastDonationDate := upd.lastDonationDate.getD d.lastDonationDate
    isAvailable := upd.isAvailable.getD d.isAvailable }

/-- Outcome of `updateDonorAvailability` (PUT /api/donors/availability),
after the donor profile has been found: the 400 response
`Cannot set as available. Must wait 8 weeks from last donation.` carrying
`nextEligibleDate`, or the 200 response with the stored flag and
`nextEligibleDate`. -/
inductive AvailabilityUpdateResult
  | mustWait (nextEligibleDate : Int)
  | ok (isAvailable : Bool) (nextEligibleDate : Int)
deriving DecidableEq, Repr

/-- `updateDonorAvailability`: reject with the must-wait error when the body
asks for `isAvailable = true` and `isEligibleToDonate()` is false; otherwise
store the supplied flag and answer 200. -/
def updateDonorAvailability (now : Int) (isAvailable : Bool) (d : Donor) :
    AvailabilityUpdateResult × Donor :=
  if isAvailable && !isEligibleToDonate now d then
    (.mustWait (nextEligibleDonationDate now d), d)
  else
    let d' : Donor := { d with isAvailable := isAvailable }
    (.ok d'.isAvailable (nextEligibleDonationDate now d'), d')

/-- `bloodRequestSchema.methods.isExpired`: `new Date() > requiredBy`. -/
def requestIsExpired (now : Int) (r : BloodRequest) : Bool :=
  decide (r.requiredBy < now)

/-- `bloodRequestSchema.methods.updateStatus`: mark `expired` when past due
and still `active`; else `fulfilled` when `unitsFulfilled >= unitsNeeded`;
else `partially_fulfilled` when `unitsFulfilled > 0`. -/
def requestUpdateStatus (now : Int) (r : BloodRequest) : BloodRequest :=
  if requestIsExpired now r && r.status == .active then
    { r with status := .expired }
  else if r.unitsNeeded ≤ r.unitsFulfilled then
    { r with status := .fulfilled }
  else if 0 < r.unitsFulfilled then
    { r with status := .partially_fulfilled }
  else r

/-- The `status` enum of the Donation schema:
`['scheduled', 'completed', 'cancelled', 'rejected', 'processing']`. -/
inductive DonationStatus
  | scheduled
  | completed
  | cancelled
  | rejected
  | processing
deriving DecidableEq, Repr

/-- The `testResults.overallResult` enum of the Donation schema:
`'safe'`, `'unsafe'` (here `notSafe`), `'pending'`. -/
inductive OverallResult
  | safe
  | notSafe
  | pending
deriving DecidableEq, Repr

/-- A Donation document, restricted to the fields the verified logic reads
or writes.  `donorUserId` is `donation.donor.user`; `certificateGenerated`
is `certification.certificateGenerated`. -/
structure Donation where
  id : Nat
  donorUserId : Nat
  donationDate : Int
  bloodType : BloodType
  volumeDonated : Nat
  centerName : String
  status : DonationStatus
  overallResult : OverallResult
  certificateGenerated : Bool
deriving DecidableEq, Repr

/-- Outcome of `completeDonation` (PUT /api/donations/:id/complete) once the
donation and its populated donor and blood request are in hand: the 400
`Donation is already completed` response, or the 200 response together with
the saved donation, donor and blood request. -/
inductive CompleteDonationResult
  | alreadyCompleted
  | ok (donation : Donation) (donor : Donor) (request : BloodRequest)
deriving DecidableEq, Repr

/-- `completeDonation`: refuse if already completed; otherwise set the
donation `completed`, copy `donationDate` into the donor's
`lastDonationDate`, bump `donationCount` and `totalVolumeDonated`, recompute
availability via `updateAvailability`, and bump the request's
`unitsFulfilled` before `updateStatus`. -/
def completeDonation (now : Int) (donation : Donation) (donor : Donor)
    (request : BloodRequest) : CompleteDonationResult :=
  if donation.status == .completed then .alreadyCompleted
  else
    .ok { donation with status := .completed }
      (updateAvailability now
        { donor with
          lastDonationDate := some donation.donationDate
          donationCount := donor.donationCount + 1
          totalVolumeDonated := donor.totalVolumeDonated + donation.volumeDonated })
      (requestUpdateStatus now { request with unitsFulfilled := request.unitsFulfilled + 1 })

/-- The `status` enum of the Certificate schema:
`['draft', 'issued', 'revoked', 'expired']` (default `issued`). -/
inductive CertStatus
  | draft
  | issued
  | revoked
  | expired
deriving DecidableEq, Repr

/-- A Certificate document, restricted to the fields the verified logic
reads or writes.  `donorName` stands for the populated
`donor.fullName`, `verificationCode` for
`verificationDetails.verificationCode`, `centerName` for
`donationDetails.donationCenter.name`. -/
structure Certificate where
  certificateId : String
  donorUserId : Nat
  donationId : Nat
  donorName : String
  donationDate : Int
  bloodType : BloodType
  volumeDonated : Nat
  centerName : String
  generatedAt : Int
  verificationCode : String
  status : CertStatus
deriving DecidableEq, Repr

/-- The error responses of `generateCertificate`
(POST /api/donations/:id/generate-certificate): 404 donation absent, 403
caller is not the donation's donor, 400 `Certificate can only be generated
for completed and safe donations`, 400 `Certificate already exists for this
donation`. -/
inductive GenCertError
  | notFound
  | forbidden
  | notCompletedSafe
  | alreadyExists
deriving DecidableEq, Repr

/-- The two 400 responses of `generateCertificate` are the state-machine
(`PreconditionError`) failures in the spec's error taxonomy. -/
def isPreconditionError : GenCertError → Bool
  | .notCompletedSafe => true
  | .alreadyExists => true
  | _ => false

/-- `generateCertificate`: look up the donation; check the caller is its
donor; check `status === 'completed' && overallResult === 'safe'`; check no
certificate exists for the donation; then create the certificate (the
pre-save hook fills `certificateId` and `verificationCode`, modelled as the
`freshCertId`/`freshCode` inputs, and the schema default makes it
`issued`), mark the donation, and answer 201.  The best-effort certificate
email is outside the modelled state (its failure is caught and changes
nothing).  Returns the response together with the donation collection and
the certificate collection after the handler. -/
def generateCertificate (userId : Nat) (userName : String) (donationId : Nat)
    (now : Int) (freshCertId freshCode : String)
    (donations : List Donation) (certs : List Certificate) :
    Except GenCertError Certificate × List Donation × List Certificate :=
  match donations.find? (fun d => d.id == donationId) with
  | none => (.error .notFound, donations, certs)
  | some donation =>
    if donation.donorUserId != userId then (.error .forbidden, donations, certs)
    else if donation.status != .completed || donation.overallResult != .safe then
      (.error .notCompletedSafe, donations, certs)
    else
      match certs.find? (fun c => c.donationId == donationId) with
      | some _ => (.error .alreadyExists, donations, certs)
      | none =>
        let cert : Certificate :=
          { certificateId := freshCertId
            donorUserId := userId
            donationId := donationId
            donorName := userName
            donationDate := donation.donationDate
            bloodType := donation.bloodType
            volumeDonated := donation.volumeDonated
            centerName := donation.centerName
            generatedAt := now
            verificationCode := freshCode
            status := .issued }
        let donations' := donations.map fun d =>
          if d.id == donationId then { d with certificateGenerated := true } else d
        (.ok cert, donations', certs ++ [cert])

/-- `certificateSchema.statics.verifyCertificate`: `findOne` on
`verificationDetails.verificationCode` equal to the code AND
`status: 'issued'`. -/
def certVerifyLookup (code : String) (certs : List Certificate) : Option Certificate :=
  certs.find? (fun c => c.verificationCode == code && c.status == .issued)

/-- The reduced public payload the `verifyCertificate` controller builds on
success (`isValid: true` plus these fields). -/
structure VerificationData where
  certificateId : String
  donorName : String
  donationDate : Int
  bloodType : BloodType
  volumeDonated : Nat
  donationCenter : String
  issuedDate : Int
  status : CertStatus
deriving DecidableEq, Repr

/-- Response of GET /api/certificates/verify/:verificationCode: the single
404 `Certificate not found or invalid verification code` failure, or the
200 payload. -/
inductive VerifyResponse
  | notFound
  | ok (data : VerificationData)
deriving DecidableEq, Repr

/-- The `verifyCertificate` controller: run the static lookup; answer the
generic 404 when it yields nothing, else the reduced payload. -/
def verifyCertificate (code : String) (certs : List Certificate) : VerifyResponse :=
  match certVerifyLookup code certs with
  | none => .notFound
  | some c =>
    .ok
      { certificateId := c.certificateId
        donorName := c.donorName
        donationDate := c.donationDate
        bloodType := c.bloodType
        volumeDonated := c.volumeDonated
        donationCenter := c.centerName
        issuedDate := c.generatedAt
        status := c.status }

/-- Response of `createBloodRequest` (POST /api/requests) once
`BloodRequest.create` has succeeded: the 201
`Blood request created successfully` payload carrying the created request.
(The 500 branch only fires when the create itself throws, which is outside
this model's scope.) -/
inductive CreateRequestResponse
  | created (request : BloodRequest)
deriving DecidableEq, Repr

/-- The donor-notification fan-out of `createBloodRequest`: find donors near
the request's location with `Donor.findNearby(coords, 50000,
request.bloodType)`, keep `donors.slice(0, 20)`, and fire one
`sendDonorNotification` per recipient.  Each send's rejection is caught and
logged (`.catch`), and the batch is awaited with `Promise.allSettled`, so
the outcomes (`sendOutcome`, `true` = delivered) are collected but never
thrown.  Returns the recipients and their outcomes. -/
def notifyNearbyDonors (dist : Donor → Nat) (donors : List Donor)
    (request : BloodRequest) (sendOutcome : Donor → Bool) :
    List Donor × List Bool :=
  let nearby := donorFindNearby dist 50000 (some request.bloodType) donors
  let recipients := nearby.take 20
  (recipients, recipients.map sendOutcome)

/-- `createBloodRequest` after the request document has been created: the
confirmation email to the requester (`confirmationOutcome`) is sent inside
its own try/catch, the donor fan-out runs inside another try/catch, and the
handler then answers 201 unconditionally.  Returns the response and the
notified donors. -/
def createBloodRequest (dist : Donor → Nat) (donors : List Donor)
    (request : BloodRequest) (confirmationOutcome : Bool)
    (sendOutcome : Donor → Bool) : CreateRequestResponse × List Donor :=
  let fanout := notifyNearbyDonors dist donors request sendOutcome
  (.created request, fanout.1)

/-- The `status` enum of the BloodInventory schema: `'Available'`,
`'Low Stock'`, `'Out of Stock'`, `'Expired'`, `'Reserved'`. -/
inductive InventoryStatus
  | Available
  | LowStock
  | OutOfStock
  | Expired
  | Reserved
deriving DecidableEq, Repr

/-- A BloodInventory document, restricted to the fields the verified logic
reads or writes. -/
structure BloodInventory where
  bloodType : BloodType
  unitsAvailable : Nat
  unitsReserved : Nat
  minimumThreshold : Nat
  expiryDate : Int
  status : InventoryStatus
deriving DecidableEq, Repr

/-- The `bloodInventorySchema.pre('save')` hook: `Expired` when
`expiryDate <= new Date()`; else `Out of Stock` when `unitsAvailable === 0`;
else `Low Stock` when `unitsAvailable <= minimumThreshold`; else `Reserved`
when `unitsReserved > 0`; else `Available`. -/
def inventoryPreSave (now : Int) (inv : BloodInventory) : BloodInventory :=
  { inv with
    status :=
      if inv.expiryDate ≤ now then .Expired
      else if inv.unitsAvailable == 0 then .OutOfStock
      else if inv.unitsAvailable ≤ inv.minimumThreshold then .LowStock
      else if 0 < inv.unitsReserved then .Reserved
      else .Available }

/-- C1: for every donor blood type `T`, `findNearbyRequests` with
`donorBloodType = T` returns only requests whose `bloodType` lies in the
compatibility-table row `getCompatibleBloodTypes T`, and every request whose
`bloodType` is in that row passes the blood-type clause of the query (it is
never excluded by the blood-type filter). -/
theorem findNearbyRequests_compatibility
    (dist : BloodRequest → Nat) (maxDistance : Nat) (now : Int) (T : BloodType)
    (requests : List BloodRequest) :
    (∀ r ∈ bloodRequestFindNearby dist maxDistance now (some T) requests,
        r.bloodType ∈ getCompatibleBloodTypes T) ∧
    (∀ r : BloodRequest, r.bloodType ∈ getCompatibleBloodTypes T →
        requestBloodTypeFilter (some T) r = true) := by
  constructor
  · intro r hr
    rw [bloodRequestFindNearby, List.mem_insertionSort, List.mem_filter] at hr
    have h := hr.2
    simp only [requestMatchesQuery, Bool.and_eq_true, requestBloodTypeFilter,
      decide_eq_true_eq] at h
    exact h.2
  · intro r hrb
    simp [requestBloodTypeFilter, hrb]

/-- A concrete `A+` active request, due at time 100. -/
def sampleAposReq : BloodRequest :=
  { patientName := "P", bloodType := .Apos, unitsNeeded := 1, urgency := .high,
    requiredBy := 100, status := .active, unitsFulfilled := 0 }

/-- Witness for C1 at a concrete input: an `A+` request retrieved for an
`O-` donor indeed lies in the `O-` row, via the theorem. -/
theorem findNearbyRequests_compatibility_witness :
    sampleAposReq.bloodType ∈ getCompatibleBloodTypes .Oneg :=
  (findNearbyRequests_compatibility (fun _ => 0) 50000 0 .Oneg [sampleAposReq]).1
    sampleAposReq (by decide)

/-- C5: every donor returned by `findNearbyDonors` is available, within the
requested radius, and — when a blood type was supplied — of exactly that
blood type. -/
theorem findNearbyDonors_filters
    (dist : Donor → Nat) (maxDistance : Nat) (bloodType : Option BloodType)
    (donors : List Donor) (d : Donor)
    (hd : d ∈ donorFindNearby dist maxDistance bloodType donors) :
    d.isAvailable = true ∧ dist d ≤ maxDistance ∧
      ∀ t, bloodType = some t → d.bloodType = t := by
  rw [donorFindNearby, List.mem_insertionSort, List.mem_filter] at hd
  have h := hd.2
  simp only [donorMatchesQuery, Bool.and_eq_true, decide_eq_true_eq] at h
  refine ⟨h.1.2, h.1.1, ?_⟩
  intro t ht
  rw [ht] at h
  simpa using h.2

/-- A concrete available `O+` donor who has never donated. -/
def sampleOposDonor : Donor :=
  { bloodType := .Opos, lastDonationDate := none, isAvailable := true,
    donationCount := 0, totalVolumeDonated := 0 }

/-- Witness for C5 at a concrete input: an available `O+` donor 100 m away,
searched with blood type `O+` and radius 50000 m. -/
theorem findNearbyDonors_filters_witness :
    sampleOposDonor.isAvailable = true ∧
    (fun _ : Donor => 100) sampleOposDonor ≤ 50000 ∧
    ∀ t, (some BloodType.Opos = some t) → sampleOposDonor.bloodType = t :=
  findNearbyDonors_filters (fun _ => 100) 50000 (some .Opos) [sampleOposDonor]
    sampleOposDonor (by decide)

/-- C6: every request returned by `findNearbyRequests` has status `active`
or `partially_fulfilled` and a `requiredBy` strictly in the future at query
time, whatever the distance bound and blood-type argument. -/
theorem findNearbyRequests_eligibility
    (dist : BloodRequest → Nat) (maxDistance : Nat) (now : Int)
    (bloodType : Option BloodType) (requests : List BloodRequest)
    (r : BloodRequest)
    (hr : r ∈ bloodRequestFindNearby dist maxDistance now bloodType requests) :
    (r.status = .active ∨ r.status = .partially_fulfilled) ∧ now < r.requiredBy := by
  rw [bloodRequestFindNearby, List.mem_insertionSort, List.mem_filter] at hr
  have h := hr.2
  simp only [requestMatchesQuery, Bool.and_eq_true, requestStatusFilter,
    requestRequiredByFilter, Bool.or_eq_true, beq_iff_eq, decide_eq_true_eq] at h
  exact ⟨h.1.1.2, h.1.2⟩

/-- A concrete partially fulfilled `B+` request due at time 100. -/
def sampleBposReq : BloodRequest :=
  { patientName := "Q", bloodType := .Bpos, unitsNeeded := 3, urgency := .low,
    requiredBy := 100, status := .partially_fulfilled, unitsFulfilled := 1 }

/-- Witness for C6 at a concrete input: a partially fulfilled request due at
time 100, queried at time 0. -/
theorem findNearbyRequests_eligibility_witness :
    (sampleBposReq.status = RequestStatus.active ∨
      sampleBposReq.status = RequestStatus.partially_fulfilled) ∧
    (0 : Int) < sampleBposReq.requiredBy :=
  findNearbyRequests_eligibility (fun _ => 0) 50000 0 none [sampleBposReq]
    sampleBposReq (by decide)

/-- A critical request due at time 10, used to exhibit the urgency-sort
behaviour of `findNearbyRequests`. -/
def criticalReq : BloodRequest :=
  { patientName := "C", bloodType := .Apos, unitsNeeded := 2, urgency := .critical,
    requiredBy := 10, status := .active, unitsFulfilled := 0 }

/-- A medium request due at time 20, used to exhibit the urgency-sort
behaviour of `findNearbyRequests`. -/
def mediumReq : BloodRequest :=
  { patientName := "M", bloodType := .Apos, unitsNeeded := 2, urgency := .medium,
    requiredBy := 20, status := .active, unitsFulfilled := 0 }

/-- C4: the claimed ordering (descending urgency, `critical` before `high`
before `medium` before `low`) fails on the code.  `.sort({ urgency: -1 })`
sorts the stored urgency *strings* in descending BSON order, and
`"medium" > "low" > "high" > "critical"` bytewise, so a `medium` request is
returned ahead of a `critical` one: at this concrete input the result is
`[mediumReq, criticalReq]`, with the critical request last. -/
theorem findNearbyRequests_urgency_sort_divergence :
    bloodRequestFindNearby (fun _ => 0) 50000 0 none [criticalReq, mediumReq]
        = [mediumReq, criticalReq] ∧
    criticalReq.urgency = Urgency.critical ∧ mediumReq.urgency = Urgency.medium ∧
    strLt (urgencyString .critical) (urgencyString .medium) = true := by
  refine ⟨?_, rfl, rfl, by decide⟩
  decide

/-- C2: whenever the looked-up donation is not `completed`, or its overall
test result is not `safe`, or a certificate for it already exists,
`generateCertificate` (called by the donation's own donor) answers one of
the two 400 precondition failures and leaves both the donation collection
and the certificate collection unchanged — in particular no Certificate
record is created. -/
theorem generateCertificate_precondition
    (userId : Nat) (userName : String) (donationId : Nat) (now : Int)
    (freshCertId freshCode : String) (donations : List Donation)
    (certs : List Certificate) (donation : Donation)
    (hfind : donations.find? (fun d => d.id == donationId) = some donation)
    (hauth : donation.donorUserId = userId)
    (hpre : donation.status ≠ .completed ∨ donation.overallResult ≠ .safe ∨
      ∃ c ∈ certs, c.donationId = donationId) :
    ∃ e, generateCertificate userId userName donationId now freshCertId freshCode
          donations certs = (.error e, donations, certs) ∧
      isPreconditionError e = true := by
  have hbne : (donation.donorUserId != userId) = false := by
    simp [hauth]
  by_cases hcs : donation.status = DonationStatus.completed ∧
      donation.overallResult = OverallResult.safe
  · have hcond : (donation.status != DonationStatus.completed ||
        donation.overallResult != OverallResult.safe) = false := by
      simp [hcs.1, hcs.2]
    have hex : ∃ c ∈ certs, c.donationId = donationId := by
      rcases hpre with h | h | h
      · exact absurd hcs.1 h
      · exact absurd hcs.2 h
      · exact h
    obtain ⟨c, hc, hcid⟩ := hex
    have hsome : (certs.find? (fun c => c.donationId == donationId)).isSome := by
      refine List.find?_isSome.mpr ⟨c, hc, ?_⟩
      simp [hcid]
    obtain ⟨c', hc'⟩ := Option.isSome_iff_exists.mp hsome
    refine ⟨.alreadyExists, ?_, rfl⟩
    simp only [generateCertificate, hfind, hbne, hcond, hc', Bool.false_eq_true,
      if_false]
  · have hcond : (donation.status != DonationStatus.completed ||
        donation.overallResult != OverallResult.safe) = true := by
      rcases not_and_or.mp hcs with h | h <;> simp [h]
    refine ⟨.notCompletedSafe, ?_, rfl⟩
    simp only [generateCertificate, hfind, hbne, hcond, Bool.false_eq_true,
      if_false, if_true]

/-- A concrete donation, completed but with `overallResult` still
`pending`. -/
def pendingDonation : Donation :=
  { id := 7, donorUserId := 1, donationDate := 0, bloodType := .Oneg,
    volumeDonated := 450, centerName := "City Center", status := .completed,
    overallResult := .pending, certificateGenerated := false }

/-- Witness for C2 at a concrete input: issuing for a completed donation
whose `overallResult` is `pending` yields a precondition failure and leaves
the certificate collection empty. -/
theorem generateCertificate_precondition_witness :
    ∃ e, generateCertificate 1 "Asha" 7 0 "CERT-1-A" "C0DE1234"
          [pendingDonation] [] = (.error e, [pendingDonation], []) ∧
      isPreconditionError e = true :=
  generateCertificate_precondition 1 "Asha" 7 0 "CERT-1-A" "C0DE1234"
    [pendingDonation] [] pendingDonation (by decide) rfl
    (Or.inr (Or.inl (by decide)))

/-- C3: `verify` answers a success payload exactly when some stored
certificate carries the queried code with status `issued`; and for a code
all of whose bearers are revoked and a code borne by no certificate at all,
the two responses are the same generic not-found failure, so a caller
cannot tell revoked from nonexistent. -/
theorem verifyCertificate_issued_iff
    (certs : List Certificate) (code : String) :
    ((∃ d, verifyCertificate code certs = .ok d) ↔
      ∃ c ∈ certs, c.verificationCode = code ∧ c.status = .issued) ∧
    (∀ code1 code2 : String,
      (∀ c ∈ certs, c.verificationCode = code1 → c.status = .revoked) →
      (∀ c ∈ certs, c.verificationCode ≠ code2) →
      verifyCertificate code1 certs = verifyCertificate code2 certs) := by
  constructor
  · constructor
    · rintro ⟨d, hd⟩
      unfold verifyCertificate at hd
      cases h : certVerifyLookup code certs with
      | none => rw [h] at hd; exact absurd hd (by simp)
      | some c =>
        have hmem : c ∈ certs := List.mem_of_find?_eq_some h
        have hp := List.find?_some h
        simp only [Bool.and_eq_true, beq_iff_eq] at hp
        exact ⟨c, hmem, hp.1, hp.2⟩
    · rintro ⟨c, hc, hcode, hst⟩
      have : (certVerifyLookup code certs).isSome := by
        refine List.find?_isSome.mpr ⟨c, hc, ?_⟩
        simp [hcode, hst]
      obtain ⟨c', hc'⟩ := Option.isSome_iff_exists.mp this
      refine ⟨⟨c'.certificateId, c'.donorName, c'.donationDate, c'.bloodType,
        c'.volumeDonated, c'.centerName, c'.generatedAt, c'.status⟩, ?_⟩
      unfold verifyCertificate
      rw [hc']
  · intro code1 code2 h1 h2
    have e1 : certVerifyLookup code1 certs = none := by
      refine List.find?_eq_none.mpr fun c hc => ?_
      simp only [Bool.and_eq_true, beq_iff_eq, not_and]
      intro hcode hst
      have := h1 c hc hcode
      rw [this] at hst
      exact absurd hst (by decide)
    have e2 : certVerifyLookup code2 certs = none := by
      refine List.find?_eq_none.mpr fun c hc => ?_
      simp only [Bool.and_eq_true, beq_iff_eq, not_and]
      intro hcode
      exact absurd hcode (h2 c hc)
    unfold verifyCertificate
    rw [e1, e2]

/-- A concrete issued certificate with code `GOODCODE`. -/
def issuedCert : Certificate :=
  { certificateId := "CERT-10-A", donorUserId := 1, donationId := 7,
    donorName := "Asha", donationDate := 0, bloodType := .Oneg,
    volumeDonated := 450, centerName := "City Center", generatedAt := 5,
    verificationCode := "GOODCODE", status := .issued }

/-- A concrete revoked certificate with code `REVCODE1`. -/
def revokedCert : Certificate :=
  { certificateId := "CERT-11-B", donorUserId := 2, donationId := 8,
    donorName := "Ravi", donationDate := 0, bloodType := .Apos,
    volumeDonated := 400, centerName := "City Center", generatedAt := 6,
    verificationCode := "REVCODE1", status := .revoked }

/-- Witness for C3 at concrete inputs: the issued certificate's code
verifies, and on a store holding only a revoked certificate the revoked
code and an absent code get the same response. -/
theorem verifyCertificate_issued_iff_witness :
    (∃ d, verifyCertificate "GOODCODE" [issuedCert] = .ok d) ∧
    verifyCertificate "REVCODE1" [revokedCert]
      = verifyCertificate "MISSING0" [revokedCert] :=
  ⟨(verifyCertificate_issued_iff [issuedCert] "GOODCODE").1.mpr
      ⟨issuedCert, by decide, rfl, rfl⟩,
    (verifyCertificate_issued_iff [revokedCert] "ANY").2 "REVCODE1" "MISSING0"
      (by intro c hc hcode; rw [List.mem_singleton] at hc; rw [hc]; rfl)
      (by intro c hc; rw [List.mem_singleton] at hc; rw [hc]; decide)⟩

/-- A donor currently unavailable whose last donation was at time 0. -/
def staleDonor : Donor :=
  { bloodType := .Apos, lastDonationDate := some 0, isAvailable := false,
    donationCount := 1, totalVolumeDonated := 450 }

/-- The profile-update body `{ isAvailable: true }`. -/
def availUpd : DonorProfileUpdate :=
  { lastDonationDate := none, isAvailable := some true }

/-- An available donor with no recorded donation. -/
def lateDonor : Donor :=
  { bloodType := .Oneg, lastDonationDate := none, isAvailable := true,
    donationCount := 0, totalVolumeDonated := 0 }

/-- A scheduled donation whose `donationDate` lies 60 days in the past. -/
def lateDonation : Donation :=
  { id := 9, donorUserId := 3, donationDate := -(60 * msPerDay),
    bloodType := .Oneg, volumeDonated := 400, centerName := "City Center",
    status := .scheduled, overallResult := .pending,
    certificateGenerated := false }

/-- An active request with 2 of 5 units fulfilled, due at time 100. -/
def someReq : BloodRequest :=
  { patientName := "R", bloodType := .Oneg, unitsNeeded := 5, urgency := .high,
    requiredBy := 100, status := .active, unitsFulfilled := 2 }

/-- The donor stored by a successful `completeDonation`, if any. -/
def completedDonorOf : CompleteDonationResult → Option Donor
  | .alreadyCompleted => none
  | .ok _ donor _ => some donor

/-- C7 fails on the code, in both halves, at these concrete inputs:
(1) completing `lateDonation` (dated 60 days ago) for the available
`lateDonor` leaves `isAvailable = true` immediately afterwards, because
availability is recomputed from the old donation date; (2) `updateDonor`
with body `{ isAvailable: true }` makes `staleDonor` available although
only 1 day (`msPerDay < 56 * msPerDay`) has elapsed since their last
donation at time 0 — the profile-update path applies the flag with no
eligibility check. -/
theorem donor_availability_counterexample :
    lateDonor.isAvailable = true ∧
    (completedDonorOf (completeDonation 0 lateDonation lateDonor someReq)).map
        Donor.isAvailable = some true ∧
    staleDonor.isAvailable = false ∧
    staleDonor.lastDonationDate = some 0 ∧
    (updateDonor availUpd staleDonor).isAvailable = true ∧
    ((msPerDay : Int) < 0 + 56 * msPerDay) := by
  refine ⟨rfl, ?_, rfl, rfl, ?_, by decide⟩
  · decide
  · decide

/-- C7 amended: `completeDonation` stores the completed donation's date as
`lastDonationDate` and recomputes `isAvailable`, which ends up true exactly
when the donor was available and at least 56 days have already elapsed
since that donation date (so it is false whenever the donation is recent);
`isEligibleToDonate` only holds for a donor who is currently available and
whose last donation, if any, is at least 56 days old, and
`updateDonorAvailability` answers the must-wait error (changing nothing)
whenever eligibility fails; `updateDonor`, by contrast, stores a supplied
`isAvailable` value with no eligibility check. -/
theorem donor_availability_amended
    (now : Int) (donation : Donation) (donor : Donor) (request : BloodRequest)
    (d : Donor) (u : DonorProfileUpdate) (b : Bool)
    (hnc : donation.status ≠ .completed) (hu : u.isAvailable = some b) :
    (∃ don' donor' req',
        completeDonation now donation donor request = .ok don' donor' req' ∧
        donor'.lastDonationDate = some donation.donationDate ∧
        donor'.isAvailable =
          (donor.isAvailable && decide (donation.donationDate + 56 * msPerDay ≤ now))) ∧
    (isEligibleToDonate now d = true →
        d.isAvailable = true ∧
        ∀ last, d.lastDonationDate = some last → last + 56 * msPerDay ≤ now) ∧
    (isEligibleToDonate now d = false →
        updateDonorAvailability now true d
          = (.mustWait (nextEligibleDonationDate now d), d)) ∧
    (updateDonor u d).isAvailable = b := by
  have hcond : (donation.status == DonationStatus.completed) = false := by
    simp [hnc]
  refine ⟨?_, ?_, ?_, ?_⟩
  · refine ⟨{ donation with status := .completed },
      updateAvailability now
        { donor with
          lastDonationDate := some donation.donationDate
          donationCount := donor.donationCount + 1
          totalVolumeDonated := donor.totalVolumeDonated + donation.volumeDonated },
      requestUpdateStatus now { request with unitsFulfilled := request.unitsFulfilled + 1 },
      ?_, rfl, ?_⟩
    · simp only [completeDonation, hcond, Bool.false_eq_true, if_false]
    · simp only [updateAvailability, isEligibleToDonate, nextEligibleDonationDate]
      cases hav : donor.isAvailable <;> simp [hav]
  · intro he
    have hav : d.isAvailable = true := by
      by_contra hav
      rw [Bool.not_eq_true] at hav
      rw [isEligibleToDonate, hav] at he
      simp at he
    refine ⟨hav, ?_⟩
    intro last hlast
    rw [isEligibleToDonate, hav] at he
    simp only [nextEligibleDonationDate, hlast, Bool.not_true, Bool.false_eq_true,
      if_false, decide_eq_true_eq] at he
    exact he
  · intro he
    simp [updateDonorAvailability, he]
  · simp [updateDonor, hu]

/-- Witness for the amended C7 at concrete inputs, via the theorem. -/
theorem donor_availability_amended_witness :
    (∃ don' donor' req',
        completeDonation 0 lateDonation lateDonor someReq = .ok don' donor' req' ∧
        donor'.lastDonationDate = some lateDonation.donationDate ∧
        donor'.isAvailable =
          (lateDonor.isAvailable &&
            decide (lateDonation.donationDate + 56 * msPerDay ≤ 0))) ∧
    (isEligibleToDonate 0 staleDonor = true →
        staleDonor.isAvailable = true ∧
        ∀ last, staleDonor.lastDonationDate = some last → last + 56 * msPerDay ≤ 0) ∧
    (isEligibleToDonate 0 staleDonor = false →
        updateDonorAvailability 0 true staleDonor
          = (.mustWait (nextEligibleDonationDate 0 staleDonor), staleDonor)) ∧
    (updateDonor availUpd staleDonor).isAvailable = true :=
  donor_availability_amended 0 lateDonation lateDonor someReq staleDonor availUpd
    true (by decide) rfl

/-- C8: after a blood request is created, the donor fan-out notifies exactly
the first 20 donors of the nearest-first `findNearby` result (so at most 20
donors), and the handler's response is the 201 success payload, identical
whatever the outcome of the confirmation email or of any of the
notification sends. -/
theorem createBloodRequest_notification_fanout
    (dist : Donor → Nat) (donors : List Donor) (request : BloodRequest)
    (c1 c2 : Bool) (s1 s2 : Donor → Bool) :
    (createBloodRequest dist donors request c1 s1).2.length ≤ 20 ∧
    (createBloodRequest dist donors request c1 s1).2
      = (donorFindNearby dist 50000 (some request.bloodType) donors).take 20 ∧
    (createBloodRequest dist donors request c1 s1).1 = .created request ∧
    (createBloodRequest dist donors request c1 s1).1
      = (createBloodRequest dist donors request c2 s2).1 := by
  refine ⟨?_, rfl, rfl, rfl⟩
  exact List.length_take_le 20 _

/-- Two inventory records agreeing on `unitsAvailable`, `minimumThreshold`
and `expiryDate` but with different `unitsReserved`. -/
def invReservedNone : BloodInventory :=
  { bloodType := .Opos, unitsAvailable := 10, unitsReserved := 0,
    minimumThreshold := 5, expiryDate := 1000, status := .Available }

/-- Same as `invReservedNone` but with one reserved unit. -/
def invReservedOne : BloodInventory :=
  { bloodType := .Opos, unitsAvailable := 10, unitsReserved := 1,
    minimumThreshold := 5, expiryDate := 1000, status := .Available }

/-- C9 fails on the code at these concrete inputs: the pre-save hook also
branches on `unitsReserved` (`Reserved` vs `Available`), so two records
agreeing on `(unitsAvailable, minimumThreshold, expiryDate)` — here 10, 5,
1000, saved at time 0 — end up with different statuses when their
`unitsReserved` differ. -/
theorem inventoryStatus_three_field_counterexample :
    invReservedNone.unitsAvailable = invReservedOne.unitsAvailable ∧
    invReservedNone.minimumThreshold = invReservedOne.minimumThreshold ∧
    invReservedNone.expiryDate = invReservedOne.expiryDate ∧
    (inventoryPreSave 0 invReservedNone).status
      ≠ (inventoryPreSave 0 invReservedOne).status := by
  decide

/-- C9 amended: the status stored by every save is a pure function of
exactly `(unitsAvailable, minimumThreshold, expiryDate, unitsReserved)` (and
the save time): two records agreeing on those four fields always end up
with the same status, independent of every other field. -/
theorem inventoryStatus_four_field_function
    (now : Int) (a b : BloodInventory)
    (h1 : a.unitsAvailable = b.unitsAvailable)
    (h2 : a.minimumThreshold = b.minimumThreshold)
    (h3 : a.expiryDate = b.expiryDate)
    (h4 : a.unitsReserved = b.unitsReserved) :
    (inventoryPreSave now a).status = (inventoryPreSave now b).status := by
  simp [inventoryPreSave, h1, h2, h3, h4]

/-- An inventory record agreeing with `invReservedNone` on all four status
inputs but differing in `bloodType` and stored `status`. -/
def invOtherType : BloodInventory :=
  { bloodType := .ABneg, unitsAvailable := 10, unitsReserved := 0,
    minimumThreshold := 5, expiryDate := 1000, status := .LowStock }

/-- Witness for the amended C9 at concrete inputs, via the theorem. -/
theorem inventoryStatus_four_field_function_witness :
    (inventoryPreSave 0 invReservedNone).status
      = (inventoryPreSave 0 invOtherType).status :=
  inventoryStatus_four_field_function 0 invReservedNone invOtherType
    rfl rfl rfl rfl

/-- C10: for a donor whose `isAvailable` flag is false,
`updateDonorAvailability` rejects a request to become available with the
must-wait error and stores nothing, whatever `lastDonationDate` is (null
included) and however much time has elapsed — `isEligibleToDonate` is false
outright when `isAvailable` is false, so this endpoint alone can never
bring a donor back to available. -/
theorem updateDonorAvailability_locked
    (now : Int) (d : Donor) (h : d.isAvailable = false) :
    updateDonorAvailability now true d
      = (.mustWait (nextEligibleDonationDate now d), d) := by
  simp [updateDonorAvailability, isEligibleToDonate, h]

/-- An unavailable donor who has never donated (`lastDonationDate` null). -/
def neverDonatedUnavailable : Donor :=
  { bloodType := .Bneg, lastDonationDate := none, isAvailable := false,
    donationCount := 0, totalVolumeDonated := 0 }

/-- Witness for C10 at a concrete input: even with `lastDonationDate` null
the unavailable donor is refused, via the theorem. -/
theorem updateDonorAvailability_locked_witness :
    updateDonorAvailability 12345 true neverDonatedUnavailable
      = (.mustWait (nextEligibleDonationDate 12345 neverDonatedUnavailable),
          neverDonatedUnavailable) :=
  updateDonorAvailability_locked 12345 neverDonatedUnavailable rfl

end BloodDonorSystem
